import Mathlib

/-!
# Verification of the investment-dashboard report pipeline

Shallow embedding of the data-normalization and report-generation core of
the repository (`src/data_manager.py`, with `src/app.py` holding a
near-duplicate older revision).  Spreadsheet cells are strings; numbers are
modelled as exact decimals `Dec` (an integer mantissa over a power-of-ten
denominator), which represents every value this pipeline manipulates
exactly.  Machine-float artefacts (IEEE rounding of non-decimal values,
inf/nan literals, underscore digit grouping, and `-0.0` produced by
parsing a literal negative-zero string) are outside the model; the IEEE
signed zero of a float *product* is modelled where it is observable, in
the 表A market-value rendering (`mktStr`).  Pandas `Series.get` on a
duplicated column label returns a
sub-Series, and feeding such a Series to `safe_float` raises `ValueError`
(`pd.isna(series)` used in a boolean context); this is modelled by
`GetRes.series` and the error value `seriesErr`.  Exceptions are modelled
with `Except String`.
-/

/-! ## Character-list utilities (Python `str` operations) -/

/-- Python whitespace for `str.strip` (ASCII fragment). -/
def isPyWs (c : Char) : Bool :=
  c = ' ' || c = '\t' || c = '\n' || c = '\r' || c.val = 11 || c.val = 12

/-- `str.strip()` on a character list. -/
def pyStripL (cs : List Char) : List Char :=
  ((cs.dropWhile isPyWs).reverse.dropWhile isPyWs).reverse

/-- `str.strip()` on a `String`. -/
def pyStripS (s : String) : String :=
  String.mk (pyStripL s.data)

/-- Does `pat` start `s`? -/
def startsWithL : List Char → List Char → Bool
  | [], _ => true
  | _ :: _, [] => false
  | p :: ps, c :: cs => p = c && startsWithL ps cs

/-- Substring containment (Python `pat in s`). -/
def containsSub (pat : List Char) : List Char → Bool
  | [] => pat.isEmpty
  | c :: rest => startsWithL pat (c :: rest) || containsSub pat rest

/-- Collapse runs of spaces to single spaces (`re.sub(' +', ' ', s)`). -/
def collapseAux : Bool → List Char → List Char
  | _, [] => []
  | prevSpace, c :: rest =>
    if c = ' ' then
      if prevSpace then collapseAux true rest
      else ' ' :: collapseAux true rest
    else c :: collapseAux false rest

def collapseSpacesL (cs : List Char) : List Char :=
  collapseAux false cs

/-! ## Exact decimals

`Dec n e` denotes the rational number `n / 10 ^ e`.  All arithmetic the
pipeline performs (decimal parsing, scaling by powers of ten, products,
comparisons, rounding) is exact on this representation. -/

structure Dec where
  num : Int
  exp : Nat
deriving DecidableEq, Repr

def myPow10 : Nat → Int
  | 0 => 1
  | e + 1 => 10 * myPow10 e

/-- Strip factors of ten so that equal values get equal representations. -/
def normAux : Int → Nat → Dec
  | n, 0 => ⟨n, 0⟩
  | n, e + 1 => if n % 10 = 0 then normAux (n / 10) e else ⟨n, e + 1⟩

def Dec.norm (d : Dec) : Dec := normAux d.num d.exp

def Dec.ofInt (n : Int) : Dec := ⟨n, 0⟩

def Dec.neg (d : Dec) : Dec := ⟨-d.num, d.exp⟩

def Dec.mul (a b : Dec) : Dec := Dec.norm ⟨a.num * b.num, a.exp + b.exp⟩

/-- Multiply by `10 ^ k` (used for the `* 100` in percent formatting). -/
def Dec.scale (d : Dec) (k : Nat) : Dec := Dec.norm ⟨d.num * myPow10 k, d.exp⟩

/-- `a ≤ b` as rationals (denominators are positive powers of ten). -/
def Dec.ble (a b : Dec) : Bool := a.num * myPow10 b.exp ≤ b.num * myPow10 a.exp

def Dec.blt (a b : Dec) : Bool := a.num * myPow10 b.exp < b.num * myPow10 a.exp

def Dec.isPos (d : Dec) : Bool := 0 < d.num

def Dec.isZero (d : Dec) : Bool := d.num = 0

def Dec.abs (d : Dec) : Dec := ⟨d.num.natAbs, d.exp⟩

/-- `|d| ≤ 5` — the magnitude heuristic threshold of `fmt_pct`. -/
def Dec.absLe5 (d : Dec) : Bool := (d.num.natAbs : Int) ≤ 5 * myPow10 d.exp

/-- Round the value to `k` decimal places, half to even (the rounding of
Python `format` on the exact decimal value). -/
def Dec.roundTo (k : Nat) (x : Dec) : Int :=
  if x.exp ≤ k then x.num * myPow10 (k - x.exp)
  else
    let m := myPow10 (x.exp - k)
    let q := Int.fdiv x.num m
    let r := x.num % m
    if 2 * r < m then q
    else if m < 2 * r then q + 1
    else if q % 2 = 0 then q else q + 1

/-! ## Python `float(...)` on cleaned strings (decimal-literal fragment) -/

def digitsToNat (cs : List Char) : Nat :=
  cs.foldl (fun a c => a * 10 + (c.toNat - 48)) 0

def applyExp (m : Dec) (sgn : Bool) (e : Nat) : Dec :=
  if sgn then ⟨m.num, m.exp + e⟩ else ⟨m.num * myPow10 e, m.exp⟩

def parseExpNum (m : Dec) : List Char → Option Dec
  | [] => none
  | '-' :: r => if r ≠ [] ∧ r.all Char.isDigit then some (applyExp m true (digitsToNat r)) else none
  | '+' :: r => if r ≠ [] ∧ r.all Char.isDigit then some (applyExp m false (digitsToNat r)) else none
  | c :: r => if (c :: r).all Char.isDigit then some (applyExp m false (digitsToNat (c :: r))) else none

def parseExpPart (m : Dec) : List Char → Option Dec
  | [] => some m
  | 'e' :: r => parseExpNum m r
  | 'E' :: r => parseExpNum m r
  | _ => none

def parseUnsigned (cs : List Char) : Option Dec :=
  let ip := cs.takeWhile Char.isDigit
  let r1 := cs.dropWhile Char.isDigit
  match r1 with
  | '.' :: r2 =>
    let fp := r2.takeWhile Char.isDigit
    let r3 := r2.dropWhile Char.isDigit
    if ip.isEmpty && fp.isEmpty then none
    else parseExpPart ⟨(digitsToNat (ip ++ fp) : Int), fp.length⟩ r3
  | _ =>
    if ip.isEmpty then none
    else parseExpPart ⟨(digitsToNat ip : Int), 0⟩ r1

/-- Python `float` on a string, restricted to finite decimal literals
(optionally signed, optional fraction and exponent).  `inf`/`nan` and
underscore separators are outside the modelled fragment. -/
def pyFloatL : List Char → Option Dec
  | [] => none
  | '-' :: r => (parseUnsigned r).map Dec.neg
  | '+' :: r => parseUnsigned r
  | c :: r => parseUnsigned (c :: r)

/-- The character rewriting of `safe_float`: the source removes
`, $ ¥ %` and `)`, rewrites `萬` to `0000` and `(` to `-`, one
`str.replace` at a time; since no replacement output contains a later
pattern, a single simultaneous pass is equivalent. -/
def cleanChar (c : Char) : List Char :=
  if c = ',' || c = '$' || c = '¥' || c = '%' || c = ')' then []
  else if c = '萬' then ['0', '0', '0', '0']
  else if c = '(' then ['-']
  else [c]

def pyCleanL (cs : List Char) : List Char :=
  cs.flatMap cleanChar

/-! ## Cells and tables -/

/-- A pandas cell value as this code meets it: a string from the sheet, a
numeric value (Python int/float, e.g. a `.get` default of `0` or a live
price), or `None`. -/
inductive Cell where
  | str : String → Cell
  | num : Dec → Cell
  | null : Cell
deriving DecidableEq, Repr

/-- Decimal rendering of a number used where Python applies `str` to a
float (unreachable in the verified claims, which only `str` sheet cells). -/
def decReprS (d : Dec) : String :=
  String.mk ((if d.num < 0 then ['-'] else []) ++ Nat.toDigits 10 d.num.natAbs) ++
    (if d.exp = 0 then ".0" else "e-" ++ String.mk (Nat.toDigits 10 d.exp))

def strOfCell : Cell → String
  | .str s => s
  | .num d => decReprS d
  | .null => "None"

/-- `safe_float` (src/data_manager.py lines 16-23): total on scalars;
`None`/empty return `0.0`, otherwise strip, rewrite symbols, parse, and
fall back to `0.0`. -/
def safe_float : Cell → Dec
  | .null => ⟨0, 0⟩
  | .num d => d.norm
  | .str s =>
    if s = "" then ⟨0, 0⟩
    else
      match pyFloatL (pyCleanL (pyStripL s.data)) with
      | some v => v.norm
      | none => ⟨0, 0⟩

/-! ## Number formatting (Python format specs) -/

/-- Insert thousands separators into a digit list. -/
def group3Aux : List Char → List Char
  | a :: b :: c :: d :: rest => a :: b :: c :: ',' :: group3Aux (d :: rest)
  | l => l

def group3 (ds : List Char) : List Char :=
  (group3Aux ds.reverse).reverse

/-- `format(x, '.kf')` / `format(x, ',.kf')` on an exact decimal.  Python
renders the sign of the value, not of the rounded result, so a negative
value that rounds to zero keeps its minus (`format(-0.2, '.0f') = "-0"`). -/
def fmtFixed (k : Nat) (grouped : Bool) (x : Dec) : String :=
  let n := Dec.roundTo k x
  let ds := Nat.toDigits 10 n.natAbs
  let ds := if ds.length ≤ k then List.replicate (k + 1 - ds.length) '0' ++ ds else ds
  let ip := ds.take (ds.length - k)
  let fp := ds.drop (ds.length - k)
  String.mk ((if x.num < 0 then ['-'] else []) ++ (if grouped then group3 ip else ip) ++
    (if k = 0 then [] else '.' :: fp))

/-- `fmt_money` (lines 25-27). -/
def fmt_money (c : Cell) : String :=
  let v := safe_float c
  if v.isZero then "0.00" else fmtFixed 2 true v

/-- `fmt_int` (lines 29-31). -/
def fmt_int (c : Cell) : String :=
  let v := safe_float c
  if v.isZero then "0" else fmtFixed 0 true v

def fmtIntD (v : Dec) : String :=
  if v.isZero then "0" else fmtFixed 0 true v

def fmtMoneyD (v : Dec) : String :=
  if v.isZero then "0.00" else fmtFixed 2 true v

/-- `fmt_pct` (lines 37-43): zero sentinel, then the 5.0 magnitude
heuristic (fraction × 100 when `|v| ≤ 5`, direct otherwise). -/
def fmt_pct (c : Cell) : String :=
  let v := safe_float c
  if v.isZero then "0.00%"
  else if v.absLe5 then fmtFixed 2 false (v.scale 2) ++ "%"
  else fmtFixed 2 false v ++ "%"

/-! ## Lookups on rows (pandas `Series.get` with duplicate labels) -/

/-- Result of `row.get(key, default)`: a scalar when the label occurs at
most once, a sub-Series when the label is duplicated. -/
inductive GetRes where
  | scalar : Cell → GetRes
  | series : List Cell → GetRes
deriving DecidableEq, Repr

def rowGet (cols : List String) (row : List Cell) (key : String) (dflt : GetRes) : GetRes :=
  match ((cols.zip row).filter (fun p => p.fst = key)).map (fun p => p.snd) with
  | [] => dflt
  | [c] => .scalar c
  | cs => .series cs

/-- Modelled `ValueError` message of `pd.isna(series)` in boolean context. -/
def seriesErr : String := "truth value of a Series is ambiguous"

def strOfGet : GetRes → String
  | .scalar c => strOfCell c
  | .series _ => "Series([...])"

/-- `safe_float` applied to a `.get` result: on a sub-Series,
`pd.isna(value)` sits before the `try` block and raises. -/
def safeFloatG : GetRes → Except String Dec
  | .scalar c => .ok (safe_float c)
  | .series _ => .error seriesErr

def fmtIntG (g : GetRes) : Except String String :=
  (safeFloatG g).map fmtIntD

def fmtMoneyG (g : GetRes) : Except String String :=
  (safeFloatG g).map fmtMoneyD

def fmtPctG : GetRes → Except String String
  | .scalar c => .ok (fmt_pct c)
  | .series _ => .error seriesErr

/-! ## Dates (`pd.to_datetime` on ISO-style day strings) -/

structure PDate where
  y : Nat
  m : Nat
  d : Nat
deriving DecidableEq, Repr

def dKey (p : PDate) : Nat := p.y * 10000 + p.m * 100 + p.d

def splitDateParts : List Char → List (List Char)
  | [] => [[]]
  | c :: rest =>
    let ps := splitDateParts rest
    if c = '-' || c = '/' then [] :: ps
    else
      match ps with
      | p :: rest2 => (c :: p) :: rest2
      | [] => [[c]]

/-- `pd.to_datetime` restricted to `YYYY-MM-DD` / `YYYY/MM/DD` day strings
(the sheet's convention); other inputs are treated as unparseable. -/
def parseDate (s : String) : Option PDate :=
  match splitDateParts (pyStripL s.data) with
  | [ys, ms, ds] =>
    if ys.length = 4 && ms ≠ [] && ms.length ≤ 2 && ds ≠ [] && ds.length ≤ 2 &&
        ys.all Char.isDigit && ms.all Char.isDigit && ds.all Char.isDigit then
      let y := digitsToNat ys
      let m := digitsToNat ms
      let d := digitsToNat ds
      if 1 ≤ m && m ≤ 12 && 1 ≤ d && d ≤ 31 then some ⟨y, m, d⟩ else none
    else none
  | _ => none

def pdToDate : Cell → Option PDate
  | .str s => parseDate s
  | _ => none

def pad2 (n : Nat) : List Char :=
  if n < 10 then '0' :: Nat.toDigits 10 n else Nat.toDigits 10 n

def isoOfDate (p : PDate) : String :=
  String.mk (Nat.toDigits 10 p.y ++ '-' :: pad2 p.m ++ '-' :: pad2 p.d)

/-- `fmt_date` (lines 33-35): best-effort parse, original string on failure. -/
def fmt_date (c : Cell) : String :=
  match pdToDate c with
  | some p => isoOfDate p
  | none => strOfCell c

/-! ## Column helpers -/

/-- `find_col` (lines 52-54): first column whose name contains the keyword. -/
def find_col (cols : List String) (kw : String) : Option String :=
  cols.find? (fun c => containsSub kw.data c.data)

def countCol (cols : List String) (name : String) : Nat :=
  (cols.filter (fun c => c = name)).length

def idxOfCol : List String → String → Nat
  | [], _ => 0
  | c :: rest, name => if c = name then 0 else idxOfCol rest name + 1

/-! ## Tables -/

structure Table where
  cols : List String
  rows : List (List Cell)
deriving DecidableEq, Repr

/-- `df.empty`: true when either axis has length zero. -/
def Table.isEmptyT (t : Table) : Bool := t.rows.isEmpty || t.cols.isEmpty

/-! ## Recent-3-distinct-dates window (shared by 表F/表D/表E) -/

def dateDescR : PDate → PDate → Prop := fun a b => dKey b ≤ dKey a

instance : DecidableRel dateDescR := fun a b => Nat.decLe (dKey b) (dKey a)

/-- The three most recent distinct dates:
`sorted(dt.date.dropna().unique(), reverse=True)[:3]`. -/
def top3Dates (ds : List PDate) : List PDate :=
  (ds.dedup.insertionSort dateDescR).take 3

def keyOfRow {α : Type} (dateOf : α → Option PDate) (r : α) : Nat :=
  match dateOf r with
  | some d => dKey d
  | none => 0

def rowAscR {α : Type} (dateOf : α → Option PDate) : α → α → Prop :=
  fun r1 r2 => keyOfRow dateOf r1 ≤ keyOfRow dateOf r2

instance {α : Type} (dateOf : α → Option PDate) : DecidableRel (rowAscR dateOf) :=
  fun a b => Nat.decLe (keyOfRow dateOf a) (keyOfRow dateOf b)

/-- Rows whose parsed date lies among the 3 most recent distinct dates,
sorted ascending by date (`isin(unique_dates)` + `sort_values`; rows with
unparseable dates are `NaT` and never selected). -/
def selectRecent3 {α : Type} (dateOf : α → Option PDate) (rows : List α) : List α :=
  let top := top3Dates (rows.filterMap dateOf)
  (rows.filter (fun r =>
    match dateOf r with
    | some d => decide (d ∈ top)
    | none => false)).insertionSort (rowAscR dateOf)

/-! ## 表C Overview section (lines 172-215) -/

def itemsC : List (String × String) := [
  ("股票市值", "股票市值"), ("現金", "現金"), ("質押借款餘額", "質押借款餘額"),
  ("總資產市值", "總資產市值"), ("實質NAV", "實質NAV"), ("質押率", "質押率"),
  ("曝險指標 E", "曝險指標 E"), ("槓桿倍數β", "曝險指標 E"), ("β風險燈號", "β風險燈號"),
  ("E風險燈號", "E風險燈號"), ("短期財務目標", "短期財務目標"), ("短期財務目標差距", "目標差距"),
  ("達成進度", "達成進度"), ("槓桿密度比LDR", "LDR"), ("LDR燈號", "LDR燈號")]

def pctKeysC : List String :=
  ["達成進度", "槓桿倍數β", "曝險指標 E", "質押率", "槓桿密度比LDR"]

def intKeysC : List String :=
  ["股票市值", "現金", "質押借款餘額", "總資產市值", "實質NAV", "短期財務目標", "短期財務目標差距"]

/-- `df_c.loc[key, col]` candidates: cells of the first value column for
rows whose stripped first-column entry equals `key`. -/
def locC (t : Table) (key : String) : List Cell :=
  (t.rows.filter (fun r => pyStripS (strOfCell (r.getD 0 Cell.null)) = key)).map
    (fun r => r.getD 1 (Cell.str ""))

def lineForC (isSeries : Bool) (hits : List Cell) (key label : String) : Except String String :=
  let val := hits.headD (Cell.str "")
  if pctKeysC.contains key then
    if isSeries then .error seriesErr
    else
      let pass := match val with
        | .str s => containsSub ['%'] s.data
        | _ => false
      .ok (label ++ "：" ++ (if pass then strOfCell val else fmt_pct val))
  else if intKeysC.contains key then
    if isSeries then .error seriesErr
    else .ok (label ++ "：" ++ fmt_int val)
  else
    .ok (label ++ "：" ++ (if isSeries then strOfGet (.series hits) else strOfCell val))

/-- The per-key loop of the 表C `try` body.  Python appends each
`label：value` line to `lines` as the loop runs, so an exception at a
later key keeps the lines already appended; the result is the emitted
lines together with the exception, if one was raised. -/
def bodyCLoop (t : Table) (dupCol : Bool) :
    List (String × String) → List String × Option String
  | [] => ([], none)
  | kl :: rest =>
    let hits := locC t kl.fst
    if hits.isEmpty then bodyCLoop t dupCol rest
    else
      match lineForC (dupCol || 1 < hits.length) hits kl.fst kl.snd with
      | .ok ln =>
        let res := bodyCLoop t dupCol rest
        (ln :: res.fst, res.snd)
      | .error e => ([], some e)

/-- The `try` body of the 表C section: index by the stripped first column,
then emit one `label：value` line per present key, in `itemsC` order.  A
table with a single column raises an `IndexError` at `df_c.columns[0]`
after `set_index`, before any line is emitted; a duplicated key or value
column reaches `safe_float` as a sub-Series mid-loop and raises there,
keeping the lines emitted for earlier keys. -/
def bodyC (t : Table) : List String × Option String :=
  if t.cols.length < 2 then ([], some "index 0 is out of bounds")
  else
    let colName := (t.cols.drop 1).headD ""
    bodyCLoop t (1 < countCol (t.cols.drop 1) colName) itemsC

def secC (t : Table) : List String :=
  "[表C]" :: (if t.isEmptyT then ["無數據"]
    else
      match bodyC t with
      | (ls, none) => ls
      | (ls, some e) => ls ++ ["讀取表C錯誤: " ++ e])

/-! ## 表H Daily-Judgment section (lines 217-246) -/

def dropToClose : List Char → Option (List Char)
  | [] => none
  | '】' :: rest => some rest
  | _ :: rest => dropToClose rest

/-- `re.sub(r"【Debug.*?】", "", s, flags=re.DOTALL)`: remove each
non-greedy `【Debug…】` block; an unclosed block matches nothing. -/
def stripDebugF : Nat → List Char → List Char
  | 0, cs => cs
  | _ + 1, [] => []
  | fuel + 1, c :: rest =>
    if c = '【' && startsWithL ['D', 'e', 'b', 'u', 'g'] rest then
      match dropToClose rest with
      | some rest2 => stripDebugF fuel rest2
      | none => c :: rest
    else c :: stripDebugF fuel rest

def stripDebug (cs : List Char) : List Char := stripDebugF cs.length cs

def bodyH (t : Table) : Except String (List String) := do
  let latest := t.rows.getLastD []
  let cols := t.cols
  let getStr := fun (oc : Option String) =>
    match oc with
    | some c => strOfGet (rowGet cols latest c (.scalar (Cell.str "N/A")))
    | none => "N/A"
  let ldr := getStr (find_col cols "LDR")
  let risk := getStr (find_col cols "風險")
  let pledge ← match find_col cols "質押" with
    | some c => fmtPctG (rowGet cols latest c (.scalar (Cell.num ⟨0, 0⟩)))
    | none => pure "0%"
  let unwind ← match find_col cols "拆倉" with
    | some c => fmtPctG (rowGet cols latest c (.scalar (Cell.num ⟨0, 0⟩)))
    | none => pure "0%"
  let flywheel := getStr (find_col cols "飛輪")
  let cmdVal := getStr (find_col cols "指令")
  let cmd := pyStripS (String.mk (stripDebug cmdVal.data))
  .ok ["LDR：" ++ ldr, "風險等級：" ++ risk, "質押率：" ++ pledge,
    "建議拆倉：" ++ unwind, "飛輪階段：" ++ flywheel, "指令：" ++ cmd]

def secH (t : Table) : List String :=
  "\n[表H_每日判斷]" :: (if t.isEmptyT then []
    else
      match bodyH t with
      | .ok ls => ls
      | .error _ => ["表H解析錯誤"])

/-! ## 表A Holdings section (lines 248-280) — not exception-wrapped -/

/-- The corrected price-candidate loop (lines 261-272): first candidate
whose `safe_float` value is strictly positive wins; `0.0` if none. -/
def resolvePrice : List GetRes → Except String Dec
  | [] => .ok ⟨0, 0⟩
  | g :: gs => do
    let v ← safeFloatG g
    if v.isPos then .ok v else resolvePrice gs

/-- The 表A market-value rendering `f"{qty * close:,.0f}"` on Python
floats: the product of finite floats carries the XOR of the operand sign
bits even when its value is zero, and `format` renders that sign, so a
negative quantity times the zero fallback price gives `-0.0` → `"-0"`.
(A `-0.0` arising from parsing a literal negative-zero string is still
outside the model; here the operands' signs are known exactly.) -/
def mktStr (qv cv : Dec) : String :=
  if (Dec.mul qv cv).num = 0 && (decide (qv.num < 0) != decide (cv.num < 0)) then "-0"
  else fmtFixed 0 true (Dec.mul qv cv)

def holdingsLine (cols : List String) (live : List (String × Dec)) (row : List Cell) :
    Except String String := do
  let ticker := pyStripS (strOfGet (rowGet cols row "股票" (.scalar (Cell.str ""))))
  let name := strOfGet (rowGet cols row "股票名稱" (.scalar (Cell.str "")))
  let qty ← fmtIntG (rowGet cols row "持有數量（股）" (.scalar (Cell.num ⟨0, 0⟩)))
  let avg ← fmtMoneyG (rowGet cols row "平均成本" (.scalar (Cell.num ⟨0, 0⟩)))
  let liveCell := match live.find? (fun p => p.fst = ticker) with
    | some p => Cell.num p.snd
    | none => Cell.null
  let closeVal ← resolvePrice [rowGet cols row "收盤價" (.scalar Cell.null),
    rowGet cols row "即時收盤價" (.scalar Cell.null),
    .scalar liveCell,
    rowGet cols row "成交價" (.scalar Cell.null)]
  let qv ← safeFloatG (rowGet cols row "持有數量（股）" (.scalar (Cell.num ⟨0, 0⟩)))
  let note := pyStripS (strOfGet (rowGet cols row "備註" (.scalar (Cell.str ""))))
  .ok (pyStripS (ticker ++ " " ++ name ++ "  " ++ (qty ++ "股") ++ "  " ++ ("均價" ++ avg) ++
    "  " ++ ("收盤" ++ fmtFixed 2 true closeVal) ++ "  " ++
    ("市值" ++ mktStr qv closeVal) ++ "  " ++ note))

def secA (t : Table) (live : List (String × Dec)) : Except String (List String) :=
  if t.isEmptyT then .ok ["\n[表A]"]
  else do
    let ls ← t.rows.mapM (holdingsLine t.cols live)
    .ok ("\n[表A]" :: ls)

/-! ## 表F NAV section (lines 282-311) -/

def fRowLine (cols : List String) (p : Nat) (row : List Cell) : Except String String := do
  let d := fmt_date (row.getD p Cell.null)
  let stk ← fmtIntG (rowGet cols row "股票市值" (.scalar (Cell.num ⟨0, 0⟩)))
  let tot ← fmtIntG (rowGet cols row "總資產" (.scalar (Cell.num ⟨0, 0⟩)))
  let cash ← fmtIntG (rowGet cols row "現金" (.scalar (Cell.num ⟨0, 0⟩)))
  let chgVal ← safeFloatG (rowGet cols row "當日淨變動" (.scalar (Cell.num ⟨0, 0⟩)))
  let nav ← fmtIntG (rowGet cols row "實質NAV" (.scalar (Cell.num ⟨0, 0⟩)))
  let betaRaw := rowGet cols row "曝險指標 E" (rowGet cols row "槓桿倍數β" (.scalar (Cell.num ⟨0, 0⟩)))
  let betaVal ← safeFloatG betaRaw
  let beta := if betaVal.ble ⟨5, 0⟩ then "E" ++ fmtFixed 2 false (betaVal.scale 2) ++ "%"
    else "E" ++ fmtFixed 2 false betaVal ++ "%"
  .ok (d ++ " " ++ ("股票市值" ++ stk) ++ " " ++ ("總資產" ++ tot) ++ " " ++ ("現金" ++ cash) ++
    " " ++ ("當日淨變動" ++ fmtIntD chgVal) ++ " " ++ ("NAV" ++ nav) ++ " " ++ beta)

def bodyF (t : Table) : Except String (List String) :=
  match find_col t.cols "日期" with
  | none => .ok ["表F無日期欄位"]
  | some dc =>
    if 1 < countCol t.cols dc then .error seriesErr
    else
      (selectRecent3 (fun r => pdToDate (r.getD (idxOfCol t.cols dc) Cell.null)) t.rows).mapM
        (fRowLine t.cols (idxOfCol t.cols dc))

def secF (t : Table) : List String :=
  "\n[表F_最近3日]" :: (if t.isEmptyT then []
    else
      match bodyF t with
      | .ok ls => ls
      | .error _ => ["表F解析錯誤"])

/-! ## 表D CashFlow section (lines 313-341) -/

def dRowLine (cols : List String) (p : Nat) (row : List Cell) : Except String String := do
  let d := fmt_date (row.getD p Cell.null)
  let item := strOfGet (rowGet cols row "用途／股票" (.scalar (Cell.str "")))
  let act := strOfGet (rowGet cols row "動作" (.scalar (Cell.str "")))
  let amtRaw ← safeFloatG (rowGet cols row "淨收／支出" (.scalar (Cell.num ⟨0, 0⟩)))
  let amtStr := "金額" ++ (if amtRaw.isPos then "+" ++ fmtIntD amtRaw else fmtIntD amtRaw)
  let qtyVal ← safeFloatG (rowGet cols row "數量" (.scalar (Cell.num ⟨0, 0⟩)))
  let qty := if qtyVal.isPos then fmtIntD qtyVal ++ "股" else ""
  let priceVal ← safeFloatG (rowGet cols row "成交價" (.scalar (Cell.num ⟨0, 0⟩)))
  let price := if priceVal.isPos then fmtMoneyD priceVal else ""
  let note := pyStripS (strOfGet (rowGet cols row "備註" (.scalar (Cell.str ""))))
  let noteStr := if note = "" then "" else "備註：" ++ note
  let line := d ++ " " ++ item ++ " " ++ act ++ " " ++ qty ++ " " ++ price ++ " " ++ amtStr ++
    " " ++ noteStr
  .ok (pyStripS (String.mk (collapseSpacesL line.data)))

def bodyD (t : Table) : Except String (List String) :=
  match find_col t.cols "日期" with
  | none => .ok ["表D無日期欄位"]
  | some dc =>
    if 1 < countCol t.cols dc then .error seriesErr
    else
      (selectRecent3 (fun r => pdToDate (r.getD (idxOfCol t.cols dc) Cell.null)) t.rows).mapM
        (dRowLine t.cols (idxOfCol t.cols dc))

def secD (t : Table) : List String :=
  "\n[表D_近3日交易]" :: (if t.isEmptyT then []
    else
      match bodyD t with
      | .ok ls => ls
      | .error _ => ["表D解析錯誤"])

/-! ## 表E Realized-PnL section (lines 343-365) -/

def eRowLine (cols : List String) (p : Nat) (row : List Cell) : Except String String := do
  let d := fmt_date (row.getD p Cell.null)
  let stk := strOfGet (rowGet cols row "股票" (.scalar (Cell.str "")))
  let pnlRaw ← safeFloatG (rowGet cols row "已實現損益" (.scalar (Cell.num ⟨0, 0⟩)))
  let pnlStr := "損益" ++ (if pnlRaw.isPos then "+" ++ fmtIntD pnlRaw else fmtIntD pnlRaw)
  let qty ← fmtIntG (rowGet cols row "成交股數" (.scalar (Cell.num ⟨0, 0⟩)))
  let note := pyStripS (strOfGet (rowGet cols row "備註" (.scalar (Cell.str ""))))
  .ok (d ++ " " ++ stk ++ " " ++ (qty ++ "股") ++ " " ++ pnlStr ++ " " ++ note)

def bodyE (t : Table) : Except String (List String) :=
  match find_col t.cols "日期" with
  | none => .ok ["無日期欄位可排序"]
  | some dc =>
    if 1 < countCol t.cols dc then .error seriesErr
    else
      (selectRecent3 (fun r => pdToDate (r.getD (idxOfCol t.cols dc) Cell.null)) t.rows).mapM
        (eRowLine t.cols (idxOfCol t.cols dc))

def secE (t : Table) : List String :=
  "\n[表E_近3日已實現損益]" :: (if t.isEmptyT then []
    else
      match bodyE t with
      | .ok ls => ls
      | .error _ => ["表E解析錯誤"])

/-! ## The report (lines 163-367) -/

def joinNL : List String → String
  | [] => ""
  | [s] => s
  | s :: rest => s ++ "\n" ++ joinNL rest

/-- Line list of `generate_daily_report`.  `today` stands for
`datetime.now().strftime('%Y/%m/%d')` (the clock is an input of the
model).  Only the 表A Holdings section sits outside a `try` block, so only
its exceptions escape. -/
def reportLines (today : String) (dfA dfC dfD dfE dfF dfH : Table)
    (live : List (String × Dec)) : Except String (List String) := do
  let a ← secA dfA live
  .ok (("[日期] " ++ today ++ "\n") :: (secC dfC ++ secH dfH ++ a ++ secF dfF ++
    secD dfD ++ secE dfE))

def generate_daily_report (today : String) (dfA dfC dfD dfE dfF dfH : Table)
    (live : List (String × Dec)) : Except String String :=
  (reportLines today dfA dfC dfD dfE dfF dfH live).map joinNL

/-! ## `load_data` header deduplication (lines 91-102) -/

def lookupA : List (String × Nat) → String → Option Nat
  | [], _ => none
  | p :: rest, n => if p.fst = n then some p.snd else lookupA rest n

def bumpA : List (String × Nat) → String → List (String × Nat)
  | [], _ => []
  | p :: rest, n => if p.fst = n then (p.fst, p.snd + 1) :: rest else p :: bumpA rest n

def renameLoop : List String → List (String × Nat) → List String
  | [], _ => []
  | c :: rest, cnt =>
    let n := if c = "" then "Unnamed" else c
    match lookupA cnt n with
    | some k => (n ++ "_" ++ toString (k + 1)) :: renameLoop rest (bumpA cnt n)
    | none => n :: renameLoop rest ((n, 0) :: cnt)

/-- Header processing of `load_data`: strip each header, then — only when
duplicates exist — map empty names to `Unnamed` and suffix repetitions
with `_N`. -/
def dedupeHeaders (raw : List String) : List String :=
  let hs := raw.map pyStripS
  if hs.dedup.length = hs.length then hs else renameLoop hs []

/-! ## Spec-side reference functions (from the claims' wording) -/

/-- The claim's price rule as literally stated for C1: "first candidate
whose normalized value is non-zero". -/
def firstNonZero : List Dec → Dec
  | [] => ⟨0, 0⟩
  | v :: vs => if v.isZero then firstNonZero vs else v

/-- The amended price rule: first strictly positive candidate. -/
def firstPositive : List Dec → Dec
  | [] => ⟨0, 0⟩
  | v :: vs => if v.isPos then v else firstPositive vs

/-! ## Concrete tables for the claims -/

def holdCols : List String := ["股票", "持有數量（股）", "收盤價", "即時收盤價", "成交價"]

def holdRowLive : List Cell :=
  [Cell.str "2330", Cell.str "1000", Cell.str "0", Cell.str "0", Cell.str "90"]

def holdRowNeg : List Cell :=
  [Cell.str "2330", Cell.str "1000", Cell.str "(5)", Cell.str "0", Cell.str "90"]

def emptyT : Table := ⟨[], []⟩

def dfAdup : Table := ⟨["收盤價", "收盤價"], [[Cell.str "10", Cell.str "20"]]⟩

def oneColC : Table := ⟨["項目"], [[Cell.str "x"]]⟩

/-- Overview table whose first key emits a line before the duplicated
`質押率` key raises mid-loop. -/
def partialC : Table := ⟨["項目", "數值"],
  [[Cell.str "股票市值", Cell.str "1"],
   [Cell.str "質押率", Cell.str "0.3"],
   [Cell.str "質押率", Cell.str "0.4"]]⟩

instance {e a : Type} [DecidableEq e] [DecidableEq a] : DecidableEq (Except e a) := fun x y =>
  match x, y with
  | .ok v, .ok w =>
    if h : v = w then isTrue (by rw [h]) else isFalse (fun hc => by cases hc; exact h rfl)
  | .error v, .error w =>
    if h : v = w then isTrue (by rw [h]) else isFalse (fun hc => by cases hc; exact h rfl)
  | .ok _, .error _ => isFalse (fun hc => by cases hc)
  | .error _, .ok _ => isFalse (fun hc => by cases hc)


def tC7 : Table := ⟨["項目", "數值"],
  [[Cell.str "股票市值", Cell.str "1,000,000"],
   [Cell.str "現金", Cell.str "(50,000)"],
   [Cell.str "槓桿倍數β", Cell.str "1.05"]]⟩

def tC7pass : Table := ⟨["項目", "數值"], [[Cell.str "質押率", Cell.str "35%"]]⟩

def tD8 : Table := ⟨["日期", "用途／股票", "動作", "淨收／支出", "數量", "成交價", "備註"],
  [[Cell.str "2024-01-01", Cell.str "0050", Cell.str "買入", Cell.str "(3000)", Cell.str "60",
    Cell.str "50", Cell.str ""],
   [Cell.str "2024-01-04", Cell.str "2330", Cell.str "買入", Cell.str "(5000)", Cell.str "100",
    Cell.str "50", Cell.str ""],
   [Cell.str "2024-01-02", Cell.str "配息", Cell.str "入金", Cell.str "8000", Cell.str "0",
    Cell.str "0", Cell.str "股息"],
   [Cell.str "2024-01-03", Cell.str "轉帳", Cell.str "出金", Cell.str "(200)", Cell.str "0",
    Cell.str "0", Cell.str ""]]⟩

def tF8 : Table := ⟨["日期", "股票市值", "總資產", "現金", "當日淨變動", "實質NAV", "曝險指標 E"],
  [[Cell.str "2024-01-02", Cell.str "900000", Cell.str "1000000", Cell.str "100000",
    Cell.str "(1500)", Cell.str "800000", Cell.str "1.05"],
   [Cell.str "2024-01-03", Cell.str "910000", Cell.str "1010000", Cell.str "100000",
    Cell.str "10000", Cell.str "810000", Cell.str "6.5"]]⟩

def tE4d : Table := ⟨["日期", "股票", "已實現損益", "成交股數", "備註"],
  [[Cell.str "2024-01-01", Cell.str "0050", Cell.str "(100)", Cell.str "10", Cell.str ""],
   [Cell.str "2024-01-04", Cell.str "2317", Cell.str "2000", Cell.str "50", Cell.str "尾盤"],
   [Cell.str "2024-01-02", Cell.str "2330", Cell.str "1500", Cell.str "100", Cell.str ""],
   [Cell.str "2024-01-03", Cell.str "2603", Cell.str "(700)", Cell.str "30", Cell.str ""]]⟩

def tEgarbage : Table := ⟨["日期", "股票", "已實現損益", "成交股數", "備註"],
  [[Cell.str "2024-01-05", Cell.str "2330", Cell.str "1500", Cell.str "100", Cell.str ""],
   [Cell.str "garbage", Cell.str "9999", Cell.str "777", Cell.str "5", Cell.str "bad"]]⟩

def tDempty : Table := ⟨["日期", "動作"], []⟩

def c5lines : List String :=
  ["[日期] 2025/01/01\n", "[表C]", "質押率：35%", "\n[表H_每日判斷]", "\n[表A]",
    "\n[表F_最近3日]", "\n[表D_近3日交易]", "\n[表E_近3日已實現損益]"]

def dateAt0 : List Cell → Option PDate := fun r => pdToDate (r.getD 0 Cell.null)

/-! ## Helper lemmas -/

theorem pyStripL_pad (l : List Char) : pyStripL ((' ' :: l) ++ [' ']) = pyStripL l := by
  unfold pyStripL
  rw [List.cons_append, List.dropWhile_cons]
  simp only [show isPyWs ' ' = true from by decide, if_true]
  rw [List.dropWhile_append]
  by_cases h : (List.dropWhile isPyWs l).isEmpty
  · rw [List.isEmpty_iff.mp h]
    simp
    decide
  · simp only [h, Bool.false_eq_true, if_false]
    rw [List.reverse_append]
    simp only [List.reverse_cons, List.reverse_nil, List.nil_append, List.singleton_append,
      List.dropWhile_cons, show isPyWs ' ' = true from by decide, if_true]

theorem safe_float_pad (s : String) :
    safe_float (Cell.str (" " ++ s ++ " ")) = safe_float (Cell.str s) := by
  have hdata : (" " ++ s ++ " ").data = (' ' :: s.data) ++ [' '] := by
    rw [String.data_append, String.data_append]
    rfl
  have hne : (" " ++ s ++ " ") ≠ "" := by
    intro h
    have h2 := congrArg String.data h
    rw [hdata] at h2
    simp at h2
  by_cases hs : s = ""
  · subst hs
    decide
  · simp only [safe_float]
    rw [if_neg hne, if_neg hs, hdata, pyStripL_pad]

theorem resolvePrice_scalars (cells : List Cell) :
    resolvePrice (cells.map GetRes.scalar) = .ok (firstPositive (cells.map safe_float)) := by
  induction cells with
  | nil => rfl
  | cons c cs ih =>
    simp only [List.map_cons, resolvePrice, firstPositive, safeFloatG]
    by_cases h : (safe_float c).isPos <;>
      simp [h, ih, Bind.bind, Except.bind]

theorem mem_selectRecent3 {α : Type} (dateOf : α → Option PDate) (rows : List α) (r : α) :
    r ∈ selectRecent3 dateOf rows ↔
      r ∈ rows ∧ ∃ d, dateOf r = some d ∧ d ∈ top3Dates (rows.filterMap dateOf) := by
  unfold selectRecent3
  rw [(List.perm_insertionSort _ _).mem_iff, List.mem_filter]
  constructor
  · rintro ⟨hr, hp⟩
    refine ⟨hr, ?_⟩
    cases h : dateOf r with
    | none => rw [h] at hp; simp at hp
    | some d =>
      rw [h] at hp
      simp only [decide_eq_true_eq] at hp
      exact ⟨d, rfl, hp⟩
  · rintro ⟨hr, d, hd, hmem⟩
    refine ⟨hr, ?_⟩
    rw [hd]
    simpa using hmem

theorem sorted_selectRecent3 {α : Type} (dateOf : α → Option PDate) (rows : List α) :
    List.Pairwise (rowAscR dateOf) (selectRecent3 dateOf rows) := by
  unfold selectRecent3
  haveI : IsTotal α (rowAscR dateOf) := ⟨fun a b => Nat.le_total _ _⟩
  haveI : IsTrans α (rowAscR dateOf) := ⟨fun _ _ _ h1 h2 => Nat.le_trans h1 h2⟩
  exact List.sorted_insertionSort _ _

theorem top3Dates_sub (ds : List PDate) : ∀ d ∈ top3Dates ds, d ∈ ds := by
  intro d hd
  unfold top3Dates at hd
  have h2 := List.take_subset 3 _ hd
  rw [(List.perm_insertionSort _ _).mem_iff] at h2
  exact List.mem_dedup.mp h2

theorem top3Dates_nodup (ds : List PDate) : (top3Dates ds).Nodup := by
  unfold top3Dates
  exact List.Nodup.sublist (List.take_sublist _ _)
    ((List.perm_insertionSort _ _).nodup_iff.mpr (List.nodup_dedup ds))

theorem top3Dates_len (ds : List PDate) : (top3Dates ds).length = min 3 ds.dedup.length := by
  unfold top3Dates
  rw [List.length_take, (List.perm_insertionSort _ _).length_eq]

theorem top3Dates_bound (ds : List PDate) (d dd : PDate) (hmem : d ∈ ds)
    (hnot : d ∉ top3Dates ds) (hdd : dd ∈ top3Dates ds) : dKey d ≤ dKey dd := by
  haveI : IsTotal PDate dateDescR := ⟨fun a b => Nat.le_total (dKey b) (dKey a)⟩
  haveI : IsTrans PDate dateDescR := ⟨fun _ _ _ h1 h2 => Nat.le_trans h2 h1⟩
  have hsorted : List.Pairwise dateDescR (ds.dedup.insertionSort dateDescR) :=
    List.sorted_insertionSort _ _
  have hdl : d ∈ ds.dedup.insertionSort dateDescR :=
    (List.perm_insertionSort _ _).mem_iff.mpr (List.mem_dedup.mpr hmem)
  have hpw : List.Pairwise dateDescR
      ((ds.dedup.insertionSort dateDescR).take 3 ++ (ds.dedup.insertionSort dateDescR).drop 3) := by
    rw [List.take_append_drop]
    exact hsorted
  have hcross := (List.pairwise_append.mp hpw).2.2
  have hd_drop : d ∈ (ds.dedup.insertionSort dateDescR).drop 3 := by
    have h3 : d ∈ (ds.dedup.insertionSort dateDescR).take 3 ++
        (ds.dedup.insertionSort dateDescR).drop 3 := by
      rw [List.take_append_drop]
      exact hdl
    rcases List.mem_append.mp h3 with h4 | h4
    · exact absurd h4 hnot
    · exact h4
  exact hcross dd hdd d hd_drop

theorem none_not_selected {α : Type} (dateOf : α → Option PDate) (rows : List α) (r : α)
    (h : dateOf r = none) : r ∉ selectRecent3 dateOf rows := by
  intro hmem
  rcases (mem_selectRecent3 dateOf rows r).mp hmem with ⟨-, d, hd, -⟩
  rw [h] at hd
  exact Option.noConfusion hd

theorem myPow10_pos (e : Nat) : (0 : Int) < myPow10 e := by
  induction e with
  | zero => decide
  | succ e ih => exact mul_pos (by norm_num) ih

theorem isZero_absLe5 (d : Dec) (h : d.isZero = true) : d.absLe5 = true := by
  have hnum : d.num = 0 := by simpa [Dec.isZero] using h
  have hp : (0 : Int) ≤ myPow10 d.exp := le_of_lt (myPow10_pos d.exp)
  simp [Dec.absLe5, hnum]
  linarith

theorem joinNL_cons_ne (x : String) (xs : List String) (hx : x.data ≠ []) :
    joinNL (x :: xs) ≠ "" := by
  cases xs with
  | nil =>
    intro h
    exact hx (congrArg String.data h)
  | cons y ys =>
    intro h
    have h2 := congrArg String.data h
    rw [show joinNL (x :: y :: ys) = x ++ "\n" ++ joinNL (y :: ys) from rfl] at h2
    rw [String.data_append, String.data_append] at h2
    rcases List.append_eq_nil.mp h2 with ⟨h3, -⟩
    rcases List.append_eq_nil.mp h3 with ⟨h4, -⟩
    exact hx h4

/-! ## Claim theorems -/

/-- Claim C1, counterexample: the Holdings price chain does not take the
first candidate with non-zero normalized value.  With manual close `"(5)"`
(normalized `-5`, non-zero), the claimed rule resolves to `-5`, but the
code skips it (`v > 0` fails) and resolves to the transaction price `90`,
emitting `收盤90.00`. -/
theorem c1_price_chain_counterexample :
    firstNonZero ([Cell.str "(5)", Cell.str "0", Cell.null, Cell.str "90"].map safe_float) =
      ⟨-5, 0⟩ ∧
    resolvePrice ([Cell.str "(5)", Cell.str "0", Cell.null, Cell.str "90"].map GetRes.scalar) =
      .ok ⟨90, 0⟩ ∧
    holdingsLine holdCols [] holdRowNeg =
      .ok "2330   1,000股  均價0.00  收盤90.00  市值90,000" ∧
    (⟨-5, 0⟩ : Dec) ≠ (⟨90, 0⟩ : Dec) := by
  refine ⟨by decide, by decide, by decide, by decide⟩

/-- Claim C1 (amended: "first candidate whose normalized value is strictly
positive"): the data_manager price chain tries manual close → 即時收盤價 →
live price → 成交價 and takes the first strictly positive candidate; with
manual 0, alt 0, live 100, transaction 90 it resolves `100`, and the
emitted market value is the normalized quantity times the resolved price
(concrete row: 1,000 shares × 100 → `市值100,000`). -/
theorem c1_price_chain_amended :
    (∀ cells : List Cell,
      resolvePrice (cells.map GetRes.scalar) = .ok (firstPositive (cells.map safe_float))) ∧
    resolvePrice [.scalar (Cell.str "0"), .scalar (Cell.str "0"),
      .scalar (Cell.num ⟨100, 0⟩), .scalar (Cell.str "90")] = .ok ⟨100, 0⟩ ∧
    holdingsLine holdCols [("2330", ⟨100, 0⟩)] holdRowLive =
      .ok "2330   1,000股  均價0.00  收盤100.00  市值100,000" ∧
    Dec.mul (safe_float (Cell.str "1000")) ⟨100, 0⟩ = ⟨100000, 0⟩ := by
  refine ⟨resolvePrice_scalars, by decide, by decide, by decide⟩

theorem c1_price_chain_amended_witness :
    resolvePrice ([Cell.str "(5)", Cell.null, Cell.str "7.5"].map GetRes.scalar) =
      .ok (firstPositive ([Cell.str "(5)", Cell.null, Cell.str "7.5"].map safe_float)) :=
  c1_price_chain_amended.1 [Cell.str "(5)", Cell.null, Cell.str "7.5"]

/-- Claim C2: `safe_float` is total on strings (it is a total function of
the embedding), strips surrounding whitespace, and satisfies the five
pinned values — `⟨12345, 1⟩` denotes `1234.5`, `⟨-500, 0⟩` denotes
`-500.0`, `⟨30000, 0⟩` denotes `30000.0`. -/
theorem c2_safe_float_total :
    safe_float (Cell.str "1,234.50") = ⟨12345, 1⟩ ∧
    safe_float (Cell.str "(500)") = ⟨-500, 0⟩ ∧
    safe_float (Cell.str "3萬") = ⟨30000, 0⟩ ∧
    safe_float (Cell.str "") = ⟨0, 0⟩ ∧
    safe_float (Cell.str "abc") = ⟨0, 0⟩ ∧
    (∀ s : String, safe_float (Cell.str (" " ++ s ++ " ")) = safe_float (Cell.str s)) := by
  refine ⟨by decide, by decide, by decide, by decide, by decide, safe_float_pad⟩

theorem c2_safe_float_total_witness :
    safe_float (Cell.str (" " ++ "7.5" ++ " ")) = safe_float (Cell.str "7.5") ∧
    safe_float (Cell.str "7.5") = ⟨75, 1⟩ :=
  ⟨c2_safe_float_total.2.2.2.2.2 "7.5", by decide⟩

/-- Claim C3: `fmt_pct` returns `"0.00%"` exactly on normalized zero,
multiplies by 100 and formats to two decimals when `|v| ≤ 5.0`, formats
directly when `|v| > 5.0`; the boundary `5.0` is inclusive on the fraction
side: `fmt_pct(5.0) = "500.00%"` and `fmt_pct(5.01) = "5.01%"`
(`⟨5, 0⟩` denotes `5.0`, `⟨501, 2⟩` denotes `5.01`). -/
theorem c3_fmt_pct_heuristic :
    (∀ c : Cell, (safe_float c).isZero = true → fmt_pct c = "0.00%") ∧
    (∀ c : Cell, (safe_float c).isZero = false → (safe_float c).absLe5 = true →
      fmt_pct c = fmtFixed 2 false ((safe_float c).scale 2) ++ "%") ∧
    (∀ c : Cell, (safe_float c).absLe5 = false →
      fmt_pct c = fmtFixed 2 false (safe_float c) ++ "%") ∧
    fmt_pct (Cell.num ⟨5, 0⟩) = "500.00%" ∧ fmt_pct (Cell.num ⟨501, 2⟩) = "5.01%" := by
  refine ⟨?_, ?_, ?_, by decide, by decide⟩
  · intro c h
    simp [fmt_pct, h]
  · intro c h0 h1
    simp [fmt_pct, h0, h1]
  · intro c h
    have h0 : (safe_float c).isZero = false := by
      by_contra hc
      rw [isZero_absLe5 _ (by revert hc; cases (safe_float c).isZero <;> simp)] at h
      cases h
    simp [fmt_pct, h0, h]

theorem c3_fmt_pct_heuristic_witness :
    (safe_float (Cell.str "0.15")).isZero = false ∧
    (safe_float (Cell.str "0.15")).absLe5 = true ∧
    fmt_pct (Cell.str "0.15") =
      fmtFixed 2 false ((safe_float (Cell.str "0.15")).scale 2) ++ "%" ∧
    fmt_pct (Cell.str "0.15") = "15.00%" :=
  ⟨by decide, by decide,
    c3_fmt_pct_heuristic.2.1 (Cell.str "0.15") (by decide) (by decide), by decide⟩

/-- Claim C4, counterexample: the Holdings 表A section is not wrapped in a
`try`, so an exception there escapes `generate_daily_report`.  A Holdings
table with a duplicated `收盤價` column makes `row.get` return a
sub-Series, `safe_float` raises on it, and the whole report raises instead
of emitting a placeholder. -/
theorem c4_holdings_escape_counterexample :
    secA dfAdup [] = .error seriesErr ∧
    generate_daily_report "2025/01/01" dfAdup emptyT emptyT emptyT emptyT emptyT [] =
      .error seriesErr := by
  refine ⟨by decide, by decide⟩

/-- Claim C4 (amended): every section except Holdings is exception
contained, and the remaining sections are still emitted.  An exception in
the 表C per-key loop keeps the lines already emitted and appends the
one-line `讀取表C錯誤` placeholder after them (concretely, `partialC`
emits `股票市值：1` before the duplicated `質押率` key raises); exceptions
in the 表H/表F/表D/表E bodies arise before any section line is emitted
(表H computes all values first, and the per-row errors of 表F/表D/表E come
from duplicated columns, which already fail on the first processed row),
so those sections degrade to header plus their one-line placeholder.  An
exception in the Holdings 表A section propagates out of
`generate_daily_report`. -/
theorem c4_section_containment_amended :
    (∀ (t : Table) (ls : List String) (e : String), t.isEmptyT = false →
      bodyC t = (ls, some e) →
      secC t = "[表C]" :: ls ++ ["讀取表C錯誤: " ++ e]) ∧
    bodyC partialC = (["股票市值：1"], some seriesErr) ∧
    secC partialC = ["[表C]", "股票市值：1", "讀取表C錯誤: " ++ seriesErr] ∧
    (∀ (t : Table) (e : String), t.isEmptyT = false → bodyH t = .error e →
      secH t = ["\n[表H_每日判斷]", "表H解析錯誤"]) ∧
    (∀ (t : Table) (e : String), t.isEmptyT = false → bodyF t = .error e →
      secF t = ["\n[表F_最近3日]", "表F解析錯誤"]) ∧
    (∀ (t : Table) (e : String), t.isEmptyT = false → bodyD t = .error e →
      secD t = ["\n[表D_近3日交易]", "表D解析錯誤"]) ∧
    (∀ (t : Table) (e : String), t.isEmptyT = false → bodyE t = .error e →
      secE t = ["\n[表E_近3日已實現損益]", "表E解析錯誤"]) ∧
    (∀ (today : String) (dfA dfC dfD dfE dfF dfH : Table) (live : List (String × Dec))
      (e : String), secA dfA live = Except.error e →
      generate_daily_report today dfA dfC dfD dfE dfF dfH live = .error e) ∧
    (∀ (today : String) (dfA dfC dfD dfE dfF dfH : Table) (live : List (String × Dec))
      (a : List String), secA dfA live = Except.ok a →
      reportLines today dfA dfC dfD dfE dfF dfH live =
        .ok (("[日期] " ++ today ++ "\n") ::
          (secC dfC ++ secH dfH ++ a ++ secF dfF ++ secD dfD ++ secE dfE))) ∧
    secC oneColC = ["[表C]", "讀取表C錯誤: index 0 is out of bounds"] ∧
    reportLines "2025/01/01" emptyT oneColC emptyT emptyT emptyT emptyT [] =
      .ok ["[日期] 2025/01/01\n", "[表C]", "讀取表C錯誤: index 0 is out of bounds",
        "\n[表H_每日判斷]", "\n[表A]", "\n[表F_最近3日]", "\n[表D_近3日交易]",
        "\n[表E_近3日已實現損益]"] := by
  refine ⟨?_, by decide, by decide, ?_, ?_, ?_, ?_, ?_, ?_, by decide, by decide⟩
  · intro t ls e h1 h2
    simp [secC, h1, h2]
  · intro t e h1 h2
    simp [secH, h1, h2]
  · intro t e h1 h2
    simp [secF, h1, h2]
  · intro t e h1 h2
    simp [secD, h1, h2]
  · intro t e h1 h2
    simp [secE, h1, h2]
  · intro today dfA dfC dfD dfE dfF dfH live e h
    simp [generate_daily_report, reportLines, h, Bind.bind, Except.bind, Except.map]
  · intro today dfA dfC dfD dfE dfF dfH live a h
    simp [reportLines, h, Bind.bind, Except.bind]

theorem c4_section_containment_amended_witness :
    secC partialC = "[表C]" :: ["股票市值：1"] ++ ["讀取表C錯誤: " ++ seriesErr] ∧
    generate_daily_report "2025/01/01" dfAdup emptyT emptyT emptyT emptyT emptyT [] =
      .error seriesErr :=
  ⟨c4_section_containment_amended.1 partialC ["股票市值：1"] seriesErr (by decide) (by decide),
    c4_section_containment_amended.2.2.2.2.2.2.2.1 "2025/01/01" dfAdup emptyT emptyT emptyT
      emptyT emptyT [] seriesErr (by decide)⟩

/-- Claim C5, counterexample: with an empty CashFlow table the report is
produced and contains all the other sections, but the 表D section consists
of the bare header only — no CashFlow placeholder line is emitted (none of
the code's placeholder strings occurs in the output). -/
theorem c5_empty_cashflow_counterexample :
    reportLines "2025/01/01" emptyT tC7pass tDempty emptyT emptyT emptyT [] = .ok c5lines ∧
    "表D解析錯誤" ∉ c5lines ∧ "表D無日期欄位" ∉ c5lines ∧ "無數據" ∉ c5lines := by
  refine ⟨by decide, by decide, by decide, by decide⟩

/-- Claim C5 (amended): with an empty CashFlow table the report is still
produced without raising (provided the unwrapped Holdings section itself
succeeds), is a non-empty string, contains every other section, and the
表D section is its bare header with no body and no placeholder line. -/
theorem c5_empty_cashflow_amended :
    (∀ cs : List String, secD ⟨cs, []⟩ = ["\n[表D_近3日交易]"]) ∧
    (∀ (today : String) (dfA dfC dfE dfF dfH : Table) (live : List (String × Dec))
      (cs : List String) (a : List String), secA dfA live = Except.ok a →
      ∃ r, generate_daily_report today dfA dfC ⟨cs, []⟩ dfE dfF dfH live = .ok r ∧ r ≠ "" ∧
        r = joinNL (("[日期] " ++ today ++ "\n") ::
          (secC dfC ++ secH dfH ++ a ++ secF dfF ++ "\n[表D_近3日交易]" :: secE dfE))) := by
  have hsec : ∀ cs : List String, secD ⟨cs, []⟩ = ["\n[表D_近3日交易]"] := by
    intro cs
    simp [secD, Table.isEmptyT]
  refine ⟨hsec, ?_⟩
  intro today dfA dfC dfE dfF dfH live cs a ha
  refine ⟨joinNL (("[日期] " ++ today ++ "\n") ::
    (secC dfC ++ secH dfH ++ a ++ secF dfF ++ "\n[表D_近3日交易]" :: secE dfE)), ?_, ?_, rfl⟩
  · simp [generate_daily_report, reportLines, ha, Bind.bind, Except.bind, Except.map, hsec cs]
  · apply joinNL_cons_ne
    rw [String.data_append, String.data_append]
    intro h
    rcases List.append_eq_nil.mp h with ⟨h3, -⟩
    rcases List.append_eq_nil.mp h3 with ⟨h4, -⟩
    exact absurd h4 (by decide)

theorem c5_empty_cashflow_amended_witness :
    ∃ r, generate_daily_report "2025/01/01" emptyT tC7pass ⟨["日期"], []⟩ emptyT emptyT
      emptyT [] = .ok r ∧ r ≠ "" ∧
      r = joinNL (("[日期] " ++ "2025/01/01" ++ "\n") ::
        (secC tC7pass ++ secH emptyT ++ ["\n[表A]"] ++ secF emptyT ++
          "\n[表D_近3日交易]" :: secE emptyT)) :=
  c5_empty_cashflow_amended.2 "2025/01/01" emptyT tC7pass emptyT emptyT emptyT [] ["日期"]
    ["\n[表A]"] (by decide)

/-- Claim C6, counterexample: the load-time renaming does not guarantee
distinct column names — raw headers `["A", "A", "A_1"]` are renamed to
`["A", "A_1", "A_1"]`, which still contains a duplicate. -/
theorem c6_dedupe_counterexample :
    dedupeHeaders ["A", "A", "A_1"] = ["A", "A_1", "A_1"] ∧
    ¬ (dedupeHeaders ["A", "A", "A_1"]).Nodup := by
  refine ⟨by decide, by decide⟩

/-- Claim C6 (amended): when the raw header row contains repeated names,
empty names become `Unnamed` and each repetition after the first gets the
`_N` suffix — `["股票", "股票", ""]` loads as `["股票", "股票_1", "Unnamed"]` —
and already-distinct stripped headers are returned unchanged; the scheme
does not guarantee that the resulting names are pairwise distinct. -/
theorem c6_dedupe_amended :
    dedupeHeaders ["股票", "股票", ""] = ["股票", "股票_1", "Unnamed"] ∧
    (∀ raw : List String, (raw.map pyStripS).Nodup → dedupeHeaders raw = raw.map pyStripS) := by
  refine ⟨by decide, ?_⟩
  intro raw h
  simp [dedupeHeaders, List.Nodup.dedup h]

theorem c6_dedupe_amended_witness :
    dedupeHeaders ["a", "b"] = ["a", "b"].map pyStripS ∧ ["a", "b"].map pyStripS = ["a", "b"] :=
  ⟨c6_dedupe_amended.2 ["a", "b"] (by decide), by decide⟩

/-- Claim C7: the Overview scenario.  For the key→value rows
`股票市值 ↦ "1,000,000"`, `現金 ↦ "(50,000)"`, `槓桿倍數β ↦ "1.05"` the
表C section is exactly the three lines `股票市值：1,000,000`,
`現金：-50,000`, `曝險指標 E：105.00%` (legacy key aliased to the
`曝險指標 E` label, absent keys silently skipped), and a stored value
already containing `%` is passed through verbatim. -/
theorem c7_overview_scenario :
    secC tC7 = ["[表C]", "股票市值：1,000,000", "現金：-50,000", "曝險指標 E：105.00%"] ∧
    secC tC7pass = ["[表C]", "質押率：35%"] := by
  refine ⟨by decide, by decide⟩

/-- Claim C8: the recent-3-days windows.  Concretely, for each of 表F, 表D
and 表E the emitted rows are exactly those on the 3 most recent distinct
parsed dates, ascending (in `tD8`/`tE4d` the oldest of 4 dates is
dropped), with the CashFlow formatting rules: `+` prefix on positive net
amounts, quantity/price omitted when not positive, note omitted when
empty, space runs collapsed.  Generally, over the shared window
`selectRecent3`: membership is exactly "parsed date among the top 3
distinct dates", the output is sorted ascending by date key, the top-3 set
dominates all other parsed dates, and it consists of at most 3 distinct
dates present in the data. -/
theorem c8_recent3_window :
    secF tF8 = ["\n[表F_最近3日]",
      "2024-01-02 股票市值900,000 總資產1,000,000 現金100,000 當日淨變動-1,500 NAV800,000 E105.00%",
      "2024-01-03 股票市值910,000 總資產1,010,000 現金100,000 當日淨變動10,000 NAV810,000 E6.50%"] ∧
    secD tD8 = ["\n[表D_近3日交易]",
      "2024-01-02 配息 入金 金額+8,000 備註：股息",
      "2024-01-03 轉帳 出金 金額-200",
      "2024-01-04 2330 買入 100股 50.00 金額-5,000"] ∧
    secE tE4d = ["\n[表E_近3日已實現損益]",
      "2024-01-02 2330 100股 損益+1,500 ",
      "2024-01-03 2603 30股 損益-700 ",
      "2024-01-04 2317 50股 損益+2,000 尾盤"] ∧
    (∀ (α : Type) (dateOf : α → Option PDate) (rows : List α) (r : α),
      r ∈ selectRecent3 dateOf rows ↔
        r ∈ rows ∧ ∃ d, dateOf r = some d ∧ d ∈ top3Dates (rows.filterMap dateOf)) ∧
    (∀ (α : Type) (dateOf : α → Option PDate) (rows : List α),
      List.Pairwise (rowAscR dateOf) (selectRecent3 dateOf rows)) ∧
    (∀ (ds : List PDate) (d dd : PDate), d ∈ ds → d ∉ top3Dates ds → dd ∈ top3Dates ds →
      dKey d ≤ dKey dd) ∧
    (∀ ds : List PDate, (top3Dates ds).Nodup ∧
      (top3Dates ds).length = min 3 ds.dedup.length ∧ ∀ d ∈ top3Dates ds, d ∈ ds) := by
  refine ⟨by decide, by decide, by decide, fun α => @mem_selectRecent3 α,
    fun α => @sorted_selectRecent3 α, top3Dates_bound,
    fun ds => ⟨top3Dates_nodup ds, top3Dates_len ds, top3Dates_sub ds⟩⟩

theorem c8_recent3_window_witness :
    dKey ⟨2024, 1, 1⟩ ≤ dKey ⟨2024, 1, 4⟩ ∧
    (⟨2024, 1, 1⟩ : PDate) ∈ [⟨2024, 1, 1⟩, ⟨2024, 1, 2⟩, ⟨2024, 1, 3⟩, ⟨2024, 1, 4⟩] :=
  ⟨c8_recent3_window.2.2.2.2.2.1
    [⟨2024, 1, 1⟩, ⟨2024, 1, 2⟩, ⟨2024, 1, 3⟩, ⟨2024, 1, 4⟩] ⟨2024, 1, 1⟩ ⟨2024, 1, 4⟩
    (by decide) (by decide) (by decide), by decide⟩

/-- Claim C10: a row whose date cell fails to parse is silently excluded
from every recent-3-days section — it is `NaT` after coercion, dropped
before the distinct dates are chosen, and never matches the window — even
when it sits at the newest position of its table (`tEgarbage` ends with
the unparseable row, which does not appear in the section). -/
theorem c10_unparseable_dates_dropped :
    (∀ (α : Type) (dateOf : α → Option PDate) (rows : List α) (r : α),
      dateOf r = none → r ∉ selectRecent3 dateOf rows) ∧
    parseDate "garbage" = none ∧
    secE tEgarbage = ["\n[表E_近3日已實現損益]", "2024-01-05 2330 100股 損益+1,500 "] := by
  refine ⟨fun α => @none_not_selected α, by decide, by decide⟩

theorem c10_unparseable_dates_dropped_witness :
    [Cell.str "garbage", Cell.str "9999", Cell.str "777", Cell.str "5", Cell.str "bad"] ∉
      selectRecent3 dateAt0 tEgarbage.rows :=
  c10_unparseable_dates_dropped.1 (List Cell) dateAt0 tEgarbage.rows
    [Cell.str "garbage", Cell.str "9999", Cell.str "777", Cell.str "5", Cell.str "bad"]
    (by decide)
